import Mathlib

/-!
Shallow embedding of the content-store backend in src/server.js
(ook-fazana-web): the results/documents MySQL tables, the schema
migration routine, the multer upload filter, the login/JWT flow and the
REST handlers, together with proofs of the specified properties.
-/

namespace Ook

/-! String literals used by the embedded code (column names, field
names, MIME types, response keys and messages from src/server.js). -/

def emptyString : String := ""

def sId : String := "id"

def sCategory : String := "category"

def sYear : String := "year"

def sImagePath : String := "image_path"

def sImageData : String := "image_data"

def sImageFilename : String := "image_filename"

def sImageMimetype : String := "image_mimetype"

def sDescription : String := "description"

def sCreatedAt : String := "created_at"

def sUpdatedAt : String := "updated_at"

def sTitle : String := "title"

def sFilePath : String := "file_path"

def sFileData : String := "file_data"

def sFileFilename : String := "file_filename"

def sFileMimetype : String := "file_mimetype"

def sMessage : String := "message"

def sResultSaved : String := "Result saved successfully"

def sDocumentSaved : String := "Document saved successfully"

def sImageSlash : String := "image/"

def sApplicationPdf : String := "application/pdf"

def sFieldImage : String := "image"

def sFieldFile : String := "file"

/-! ## Data model: the results table

Columns of the results table as created by initializeTables
(src/server.js:189-202): id INT AUTO_INCREMENT PRIMARY KEY,
category, year, image_data LONGBLOB, image_filename, image_mimetype,
description, created_at, updated_at, with
UNIQUE KEY unique_category_year (category, year).
Timestamps are modelled as naturals, blobs as byte lists. -/

structure ResultRow where
  id : Nat
  category : String
  year : String
  image_data : List Nat
  image_filename : String
  image_mimetype : String
  description : String
  created_at : Nat
  updated_at : Nat
deriving DecidableEq

/-- The results table plus the AUTO_INCREMENT counter (MySQL starts it
at 1). -/
structure ResultsStore where
  rows : List ResultRow
  nextId : Nat
deriving DecidableEq

def emptyResults : ResultsStore := { rows := [], nextId := 1 }

/-- Row matches the UNIQUE KEY unique_category_year (category, year). -/
def keyMatches (c y : String) (r : ResultRow) : Bool :=
  r.category == c && r.year == y

/-- SELECT ... FROM results WHERE category = ? AND year = ? (first row). -/
def findByKey (rows : List ResultRow) (c y : String) : Option ResultRow :=
  rows.find? (keyMatches c y)

/-- Number of rows for a given (category, year) pair. -/
def countKey (rows : List ResultRow) (c y : String) : Nat :=
  (rows.filter (keyMatches c y)).length

/-- SELECT ... FROM results WHERE id = ? (first row). -/
def findById (rows : List ResultRow) (i : Nat) : Option ResultRow :=
  rows.find? (fun r => r.id == i)

/-- The ON DUPLICATE KEY UPDATE clause of the POST /api/results insert
(src/server.js:417-420): replace image_data, image_filename,
image_mimetype, description and set updated_at = CURRENT_TIMESTAMP,
leaving id, category, year, created_at alone. -/
def applyDupUpdate (d : List Nat) (fn mt ds : String) (now : Nat)
    (r : ResultRow) : ResultRow :=
  { r with image_data := d, image_filename := fn, image_mimetype := mt,
           description := ds, updated_at := now }

/-- Effect on the results table of the POST /api/results INSERT ... ON
DUPLICATE KEY UPDATE statement (src/server.js:417-420): if a row with
the same (category, year) key exists it is updated in place, otherwise
a fresh row is appended with a new AUTO_INCREMENT id and
created_at = updated_at = now. -/
def createResult (st : ResultsStore) (c y : String) (d : List Nat)
    (fn mt ds : String) (now : Nat) : ResultsStore :=
  if (findByKey st.rows c y).isSome then
    { st with rows := st.rows.map (fun r =>
        if keyMatches c y r then applyDupUpdate d fn mt ds now r else r) }
  else
    { rows := st.rows ++
        [{ id := st.nextId, category := c, year := y, image_data := d,
           image_filename := fn, image_mimetype := mt, description := ds,
           created_at := now, updated_at := now }],
      nextId := st.nextId + 1 }

/-- Outcome of a mutating SQL statement as observed by the handlers:
ok, no row matched (affectedRows = 0, handler answers 404), or the
UNIQUE KEY rejected the write (mysql throws, handler answers 500). -/
inductive DbOutcome
  | ok
  | notFound
  | dupKey
deriving DecidableEq

/-- The SET clause of PUT /api/results/:id (src/server.js:442-449):
always set category, year, description, updated_at; additionally
replace the three image columns when a new file was uploaded. -/
def applyPut (c y ds : String) (file : Option (List Nat × String × String))
    (now : Nat) (r : ResultRow) : ResultRow :=
  let r1 := { r with category := c, year := y, description := ds,
                     updated_at := now }
  match file with
  | none => r1
  | some (d, fn, mt) =>
      { r1 with image_data := d, image_filename := fn, image_mimetype := mt }

/-- Effect of the UPDATE statement of PUT /api/results/:id
(src/server.js:437-466).  If no row has the id, affectedRows = 0 and
the handler returns 404.  If the new (category, year) would collide
with a different row, the UNIQUE KEY makes MySQL reject the statement
and nothing changes.  Otherwise the matching row is rewritten in
place. -/
def updateResult (st : ResultsStore) (i : Nat) (c y ds : String)
    (file : Option (List Nat × String × String)) (now : Nat) :
    ResultsStore × DbOutcome :=
  if st.rows.any (fun r => r.id == i) then
    if st.rows.any (fun r => r.id != i && keyMatches c y r) then
      (st, DbOutcome.dupKey)
    else
      ({ st with rows := st.rows.map (fun r =>
           if r.id == i then applyPut c y ds file now r else r) },
       DbOutcome.ok)
  else (st, DbOutcome.notFound)

/-- Effect of DELETE /api/results/:id (src/server.js:468-487): 404 when
the id is absent, otherwise the row is removed. -/
def deleteResult (st : ResultsStore) (i : Nat) : ResultsStore × DbOutcome :=
  if st.rows.any (fun r => r.id == i) then
    ({ st with rows := st.rows.filter (fun r => r.id != i) }, DbOutcome.ok)
  else (st, DbOutcome.notFound)

/-- GET /api/results/:id/image (src/server.js:372-398): the stored
blob with its MIME type and filename, or a 404. -/
def getResultImage (st : ResultsStore) (i : Nat) :
    Option (List Nat × String × String) :=
  (findById st.rows i).map (fun r =>
    (r.image_data, r.image_mimetype, r.image_filename))

/-! ## Store invariant and reachability -/

/-- Distinctness enforced by the schema: the UNIQUE KEY on
(category, year) and the PRIMARY KEY on id. -/
def RowsOk (rows : List ResultRow) : Prop :=
  rows.Pairwise (fun a b =>
    (a.category ≠ b.category ∨ a.year ≠ b.year) ∧ a.id ≠ b.id)

/-- Full store invariant: the two key constraints plus freshness of the
AUTO_INCREMENT counter. -/
def StoreInv (st : ResultsStore) : Prop :=
  RowsOk st.rows ∧ ∀ r ∈ st.rows, r.id < st.nextId

/-- States of the results table reachable through the API handlers from
an empty table. -/
inductive Reachable : ResultsStore → Prop
  | init : Reachable emptyResults
  | create {st : ResultsStore} (c y : String) (d : List Nat)
      (fn mt ds : String) (now : Nat) :
      Reachable st → Reachable (createResult st c y d fn mt ds now)
  | update {st : ResultsStore} (i : Nat) (c y ds : String)
      (file : Option (List Nat × String × String)) (now : Nat) :
      Reachable st → Reachable (updateResult st i c y ds file now).1
  | delete {st : ResultsStore} (i : Nat) :
      Reachable st → Reachable (deleteResult st i).1

/-! ## Data model: the documents table (src/server.js:205-217) -/

structure DocumentRow where
  id : Nat
  title : String
  category : String
  file_data : List Nat
  file_filename : String
  file_mimetype : String
  description : String
  created_at : Nat
  updated_at : Nat
deriving DecidableEq

structure DocStore where
  rows : List DocumentRow
  nextId : Nat
deriving DecidableEq

def emptyDocs : DocStore := { rows := [], nextId := 1 }

/-- Effect of the plain INSERT of POST /api/documents
(src/server.js:563-566); the second component is result.insertId. -/
def createDocument (st : DocStore) (title c : String) (d : List Nat)
    (fn mt ds : String) (now : Nat) : DocStore × Nat :=
  ({ rows := st.rows ++
       [{ id := st.nextId, title := title, category := c, file_data := d,
          file_filename := fn, file_mimetype := mt, description := ds,
          created_at := now, updated_at := now }],
     nextId := st.nextId + 1 },
   st.nextId)

/-! ## Listing order (GET /api/results, src/server.js:341-349)

The handler runs SELECT ... FROM results ORDER BY year DESC, category.
The relation below is the corresponding row order: season-year
descending (string comparison, as year is VARCHAR), then category
ascending. -/

def resultsOrder (a b : ResultRow) : Prop :=
  b.year < a.year ∨ (a.year = b.year ∧ a.category ≤ b.category)

instance : DecidableRel resultsOrder := fun a b => by
  unfold resultsOrder; infer_instance

instance : IsTotal ResultRow resultsOrder := by
  constructor
  intro a b
  rcases lt_trichotomy a.year b.year with h | h | h
  · exact Or.inr (Or.inl h)
  · rcases le_total a.category b.category with hc | hc
    · exact Or.inl (Or.inr ⟨h, hc⟩)
    · exact Or.inr (Or.inr ⟨h.symm, hc⟩)
  · exact Or.inl (Or.inl h)

instance : IsTrans ResultRow resultsOrder := by
  constructor
  intro a b c hab hbc
  rcases hab with h1 | ⟨e1, c1⟩
  · rcases hbc with h2 | ⟨e2, _⟩
    · exact Or.inl (h2.trans h1)
    · exact Or.inl (e2 ▸ h1)
  · rcases hbc with h2 | ⟨e2, c2⟩
    · exact Or.inl (e1 ▸ h2)
    · exact Or.inr ⟨e1.trans e2, c1.trans c2⟩

/-- Row list returned by GET /api/results: all rows, sorted by the
ORDER BY year DESC, category key. -/
def getResults (st : ResultsStore) : List ResultRow :=
  List.insertionSort resultsOrder st.rows

/-! ## Schema state and the startup migration (src/server.js:104-181)

A table is modelled by its list of column names (what the
INFORMATION_SCHEMA.COLUMNS query observes); an absent table yields no
rows for that query.  The schema state tracks the four table names the
migration touches. -/

structure Schema where
  results : Option (List String)
  results_new : Option (List String)
  documents : Option (List String)
  documents_new : Option (List String)
deriving DecidableEq

/-- Columns of the results table in the new BLOB layout, exactly as in
the CREATE TABLE of src/server.js:120-133. -/
def modernResultsCols : List String :=
  [sId, sCategory, sYear, sImageData, sImageFilename, sImageMimetype,
   sDescription, sCreatedAt, sUpdatedAt]

/-- Columns of the documents table in the new BLOB layout
(src/server.js:156-168). -/
def modernDocumentsCols : List String :=
  [sId, sTitle, sCategory, sFileData, sFileFilename, sFileMimetype,
   sDescription, sCreatedAt, sUpdatedAt]

/-- Columns of the legacy path-based results table (stores image_path,
no image_data). -/
def legacyResultsCols : List String :=
  [sId, sCategory, sYear, sImagePath, sDescription, sCreatedAt, sUpdatedAt]

/-- Columns of the legacy path-based documents table. -/
def legacyDocumentsCols : List String :=
  [sId, sTitle, sCategory, sFilePath, sDescription, sCreatedAt, sUpdatedAt]

/-- Legacy-layout test used by the migration's detection predicate:
path column present and BLOB column absent (src/server.js:116). -/
def isLegacyResults (cols : List String) : Bool :=
  cols.contains sImagePath && !(cols.contains sImageData)

/-- New-layout test: the BLOB column is present. -/
def isModernResults (cols : List String) : Bool :=
  cols.contains sImageData

def isLegacyDocuments (cols : List String) : Bool :=
  cols.contains sFilePath && !(cols.contains sFileData)

def isModernDocuments (cols : List String) : Bool :=
  cols.contains sFileData

/-- Detection predicate for the results table (src/server.js:107-116):
query the column names of 'results' and test for image_path without
image_data.  An absent table contributes no columns, so detection is
false. -/
def resultsDetect (s : Schema) : Bool :=
  match s.results with
  | none => false
  | some cols => isLegacyResults cols

def documentsDetect (s : Schema) : Bool :=
  match s.documents with
  | none => false
  | some cols => isLegacyDocuments cols

/-- The results half of migrateTables (src/server.js:116-140): when
detection fires, CREATE TABLE results_new, DROP TABLE results, RENAME
results_new TO results.  CREATE TABLE fails when results_new already
exists (the state is then returned unchanged together with the error
flag, the thrown error aborting the rest of the routine); once CREATE
succeeds, DROP and RENAME cannot fail (detection guarantees results
exists and the rename target was just dropped), so the three DDL
statements compose to the rewrite below. -/
def migrateResultsStep (s : Schema) : Schema × Bool :=
  if resultsDetect s then
    match s.results_new with
    | some _ => (s, true)
    | none => ({ s with results := some modernResultsCols,
                        results_new := none }, false)
  else (s, false)

/-- The documents half of migrateTables (src/server.js:143-175). -/
def migrateDocumentsStep (s : Schema) : Schema × Bool :=
  if documentsDetect s then
    match s.documents_new with
    | some _ => (s, true)
    | none => ({ s with documents := some modernDocumentsCols,
                        documents_new := none }, false)
  else (s, false)

/-- migrateTables (src/server.js:104-181): the results part runs first;
a thrown error skips the documents part and lands in the catch block,
which logs and deliberately does not rethrow, so the caller only ever
sees the final state.  The error flag records whether the catch block
was entered. -/
def migrateTables (s : Schema) : Schema × Bool :=
  match migrateResultsStep s with
  | (s1, true) => (s1, true)
  | (s1, false) => migrateDocumentsStep s1

/-- The CREATE TABLE IF NOT EXISTS statements of initializeTables
(src/server.js:189-217): create each table in the new layout only when
it is absent. -/
def createTablesStep (s : Schema) : Schema :=
  { s with
    results := some (s.results.getD modernResultsCols),
    documents := some (s.documents.getD modernDocumentsCols) }

/-- initializeTables (src/server.js:183-250): run migrateTables — whose
catch block swallows any migration error — then the
CREATE TABLE IF NOT EXISTS statements.  Only a failure of the latter
(impossible in this model) would propagate to the caller. -/
def initializeTables (s : Schema) : Except Unit Schema :=
  match migrateTables s with
  | (s1, _) => Except.ok (createTablesStep s1)

/-- startServer (src/server.js:677-690): initialize the database and,
unless that raised, begin serving (some finalSchema); on a propagated
error the process exits without serving (none). -/
def startServer (s : Schema) : Option Schema :=
  match initializeTables s with
  | Except.ok s1 => some s1
  | Except.error _ => none

/-! ## Upload pipeline (multer, src/server.js:252-279) -/

structure Upload where
  fieldname : String
  mimetype : String
  originalname : String
  bytes : List Nat
deriving DecidableEq

def maxFileSize : Nat := 10 * 1024 * 1024

/-- mimetype.startsWith(p), spelled out on the character lists so that
it evaluates inside the kernel. -/
def stringStartsWith (p s : String) : Bool :=
  List.isPrefixOf p.data s.data

/-- The multer fileFilter (src/server.js:260-278): images only for the
image field, PDF only for the file field, any other field rejected. -/
def fileFilter (fieldname mimetype : String) : Bool :=
  if fieldname == sFieldImage then stringStartsWith sImageSlash mimetype
  else if fieldname == sFieldFile then mimetype == sApplicationPdf
  else false

inductive UploadError
  | limitFileSize
  | invalidFileType
deriving DecidableEq

/-- Multer acceptance of the single uploaded file: the fileFilter runs
when the file arrives, and the 10 MB limit applies to its contents. -/
def multerAccept (u : Upload) : Except UploadError Upload :=
  if fileFilter u.fieldname u.mimetype then
    if u.bytes.length > maxFileSize then Except.error UploadError.limitFileSize
    else Except.ok u
  else Except.error UploadError.invalidFileType

/-- The error handling middleware (src/server.js:649-659): only the
LIMIT_FILE_SIZE MulterError is mapped to 400; a fileFilter rejection is
a plain Error and falls through to the generic 500 response. -/
def errorMiddlewareStatus : UploadError → Nat
  | UploadError.limitFileSize => 400
  | UploadError.invalidFileType => 500

/-- POST /api/results (src/server.js:400-435) for a request that
carries a file: HTTP status plus resulting store.  A multer error stops
the request before the handler body, so the table is untouched; an
empty category or year models the falsy-field check and yields 400;
otherwise the upsert runs and the handler answers 200. -/
def postResults (st : ResultsStore) (u : Upload) (c y ds : String)
    (now : Nat) : Nat × ResultsStore :=
  match multerAccept u with
  | Except.error e => (errorMiddlewareStatus e, st)
  | Except.ok uf =>
    if c == emptyString || y == emptyString then (400, st)
    else (200, createResult st c y uf.bytes uf.originalname uf.mimetype ds now)

/-- POST /api/documents (src/server.js:546-582) for a request that
carries a file. -/
def postDocuments (st : DocStore) (u : Upload) (title c ds : String)
    (now : Nat) : Nat × DocStore :=
  match multerAccept u with
  | Except.error e => (errorMiddlewareStatus e, st)
  | Except.ok uf =>
    if title == emptyString || c == emptyString then (400, st)
    else (200, (createDocument st title c uf.bytes uf.originalname
                  uf.mimetype ds now).1)

/-! ## JSON response bodies of the two create endpoints -/

inductive JsonVal
  | str (s : String)
  | num (n : Nat)
deriving DecidableEq

/-- Response body of a successful POST /api/results
(src/server.js:422-429): business key and metadata, no id field. -/
def resultsCreateBody (c y fn mt ds : String) : List (String × JsonVal) :=
  [(sCategory, JsonVal.str c), (sYear, JsonVal.str y),
   (sImageFilename, JsonVal.str fn), (sImageMimetype, JsonVal.str mt),
   (sDescription, JsonVal.str ds), (sMessage, JsonVal.str sResultSaved)]

/-- Response body of a successful POST /api/documents
(src/server.js:568-576): includes id = result.insertId. -/
def documentsCreateBody (i : Nat) (title c fn mt ds : String) :
    List (String × JsonVal) :=
  [(sId, JsonVal.num i), (sTitle, JsonVal.str title),
   (sCategory, JsonVal.str c), (sFileFilename, JsonVal.str fn),
   (sFileMimetype, JsonVal.str mt), (sDescription, JsonVal.str ds),
   (sMessage, JsonVal.str sDocumentSaved)]

/-! ## Authentication (src/server.js:282-338)

bcrypt and jsonwebtoken are external libraries; they are modelled by
their contracts: hashSync is injective on passwords, compareSync tests
a password against a hash, sign embeds the payload with an expiry 24
hours after issue, and verify checks secret and expiry. -/

def sBcryptTag : String := "$2a$10$"

def bcryptHashSync (password : String) : String :=
  sBcryptTag ++ password

def bcryptCompareSync (password hash : String) : Bool :=
  hash == bcryptHashSync password

structure AdminUser where
  id : Nat
  username : String
  password_hash : String
deriving DecidableEq

structure JwtToken where
  userId : Nat
  username : String
  secret : String
  exp : Nat
deriving DecidableEq

/-- jwt.sign with expiresIn 24h (src/server.js:320-324). -/
def jwtSign (uid : Nat) (uname secret : String) (now : Nat) : JwtToken :=
  { userId := uid, username := uname, secret := secret,
    exp := now + 24 * 60 * 60 }

/-- jwt.verify: the token must carry the right secret and must not have
expired (a token is expired from its exp instant on). -/
def jwtVerify (t : JwtToken) (secret : String) (now : Nat) :
    Option (Nat × String) :=
  if t.secret == secret && now < t.exp then some (t.userId, t.username)
  else none

inductive LoginResult
  | badRequest
  | invalidCredentials
  | success (token : JwtToken) (uid : Nat) (uname : String)
deriving DecidableEq

/-- POST /api/auth/login (src/server.js:302-338): 400 on a missing
field (modelled as the empty string), 401 when the username is unknown
or the password does not match the stored hash, otherwise a signed
token. -/
def login (users : List AdminUser) (username password secret : String)
    (now : Nat) : LoginResult :=
  if username == emptyString || password == emptyString then
    LoginResult.badRequest
  else
    match users.find? (fun u => u.username == username) with
    | none => LoginResult.invalidCredentials
    | some u =>
      if bcryptCompareSync password u.password_hash then
        LoginResult.success (jwtSign u.id u.username secret now) u.id
          u.username
      else LoginResult.invalidCredentials

inductive AuthResult
  | missingToken
  | invalidOrExpired
  | authorized (uid : Nat) (uname : String)
deriving DecidableEq

/-- authenticateToken middleware (src/server.js:282-297): 401 without a
token, 403 when verification fails, otherwise the request proceeds as
the token's user. -/
def authenticateToken (tok : Option JwtToken) (secret : String)
    (now : Nat) : AuthResult :=
  match tok with
  | none => AuthResult.missingToken
  | some t =>
    match jwtVerify t secret now with
    | none => AuthResult.invalidOrExpired
    | some p => AuthResult.authorized p.1 p.2

/-! ## Concrete data used by witnesses and counterexamples -/

def sMini : String := "mini-odbojka"

def s2024 : String := "2024"

def s2023 : String := "2023"

def sDescA : String := "A"

def sDescB : String := "B"

def sPng : String := "image/png"

def sTextPlain : String := "text/plain"

def sFnA : String := "a.png"

def sFnB : String := "b.png"

def sFnBad : String := "notes.txt"

def sAdmin : String := "admin"

def sDefaultPw : String := "ookfazana2024"

def sWrongPw : String := "letmein"

def sSecret : String := "ook-fazana-secret-key"

/-- A two-row store used by witnesses. -/
def wStore : ResultsStore :=
  { rows :=
      [{ id := 1, category := sMini, year := s2023, image_data := [1, 2],
         image_filename := sFnA, image_mimetype := sPng,
         description := sDescA, created_at := 10, updated_at := 10 },
       { id := 2, category := sMini, year := s2024, image_data := [3],
         image_filename := sFnB, image_mimetype := sPng,
         description := sDescB, created_at := 11, updated_at := 11 }],
    nextId := 3 }

/-- State of wStore after the PUT of the C9 witness. -/
def wStoreAfterPut : ResultsStore :=
  (updateResult wStore 1 sMini s2023 sDescB none 42).1

/-- Legacy-layout schema: the real pre-migration database state. -/
def legacySchema : Schema :=
  { results := some legacyResultsCols, results_new := none,
    documents := some legacyDocumentsCols, documents_new := none }

/-- Schema left behind by a crash between CREATE TABLE results_new and
DROP TABLE results: both the legacy results table and the freshly
created results_new exist. -/
def stuckSchema : Schema :=
  { results := some legacyResultsCols,
    results_new := some modernResultsCols,
    documents := some legacyDocumentsCols, documents_new := none }

/-- A text file posted in the image field. -/
def badImageUpload : Upload :=
  { fieldname := sFieldImage, mimetype := sTextPlain,
    originalname := sFnBad, bytes := [104, 105] }

/-- A PNG posted in the file field of POST /api/documents. -/
def badPdfUpload : Upload :=
  { fieldname := sFieldFile, mimetype := sPng,
    originalname := sFnA, bytes := [7] }

/-- The admin row seeded on first startup (src/server.js:229-242). -/
def wUser : AdminUser :=
  { id := 1, username := sAdmin, password_hash := bcryptHashSync sDefaultPw }

/-- Admin table as seeded on first startup. -/
def wUsers : List AdminUser := [wUser]

/-! ## Helper lemmas -/

theorem keyMatches_iff {c y : String} {r : ResultRow} :
    keyMatches c y r = true ↔ r.category = c ∧ r.year = y := by
  simp [keyMatches]

theorem keyMatches_applyDupUpdate (c' y' : String) (d : List Nat)
    (fn mt ds : String) (now : Nat) (r : ResultRow) :
    keyMatches c' y' (applyDupUpdate d fn mt ds now r) =
      keyMatches c' y' r := rfl

theorem id_applyDupUpdate (d : List Nat) (fn mt ds : String) (now : Nat)
    (r : ResultRow) : (applyDupUpdate d fn mt ds now r).id = r.id := rfl

theorem find?_map_comm {α β : Type} (f : α → β) (p : β → Bool)
    (l : List α) :
    (l.map f).find? p = (l.find? (fun a => p (f a))).map f := by
  induction l with
  | nil => rfl
  | cons a l ih =>
    by_cases h : p (f a) = true
    · simp [List.find?_cons, h]
    · simp only [Bool.not_eq_true] at h
      simp [List.find?_cons, h, ih]

theorem filter_map_comm {α β : Type} (f : α → β) (p : β → Bool)
    (l : List α) :
    (l.map f).filter p = (l.filter (fun a => p (f a))).map f := by
  induction l with
  | nil => rfl
  | cons a l ih =>
    by_cases h : p (f a) = true
    · simp [List.filter_cons, h, ih]
    · simp only [Bool.not_eq_true] at h
      simp [List.filter_cons, h, ih]

theorem find?_congr_pred {α : Type} {p q : α → Bool} (l : List α)
    (h : ∀ a, p a = q a) : l.find? p = l.find? q := by
  have : p = q := funext h
  rw [this]

/-- With pairwise-distinct ids, searching a member row's id finds that
row. -/
theorem findById_of_mem {rows : List ResultRow} {r : ResultRow}
    (h : RowsOk rows) (hm : r ∈ rows) : findById rows r.id = some r := by
  induction rows with
  | nil => cases hm
  | cons a l ih =>
    have hp := List.pairwise_cons.mp h
    rcases List.mem_cons.mp hm with rfl | hm2
    · simp [findById, List.find?_cons]
    · have hne : (a.id == r.id) = false := by
        have : a.id ≠ r.id := (hp.1 r hm2).2
        simpa using this
      simpa [findById, List.find?_cons, hne] using ih hp.2 hm2

/-- A pairwise-unique key occurs exactly once among the rows that carry
it. -/
theorem countKey_eq_one_of_mem {rows : List ResultRow} {r : ResultRow}
    {c y : String} (h : RowsOk rows) (hm : r ∈ rows)
    (hk : keyMatches c y r = true) : countKey rows c y = 1 := by
  unfold countKey
  have hsub : (rows.filter (keyMatches c y)).Pairwise (fun a b =>
      (a.category ≠ b.category ∨ a.year ≠ b.year) ∧ a.id ≠ b.id) :=
    h.sublist (List.filter_sublist rows)
  have hmem : r ∈ rows.filter (keyMatches c y) :=
    List.mem_filter.mpr ⟨hm, hk⟩
  rcases hf : rows.filter (keyMatches c y) with _ | ⟨a, _ | ⟨b, t⟩⟩
  · rw [hf] at hmem; cases hmem
  · rfl
  · exfalso
    rw [hf] at hsub
    have hab := (List.pairwise_cons.mp hsub).1 b (by simp)
    have ha : keyMatches c y a = true := by
      have : a ∈ rows.filter (keyMatches c y) := by rw [hf]; simp
      exact (List.mem_filter.mp this).2
    have hb : keyMatches c y b = true := by
      have : b ∈ rows.filter (keyMatches c y) := by rw [hf]; simp
      exact (List.mem_filter.mp this).2
    rcases keyMatches_iff.mp ha with ⟨ha1, ha2⟩
    rcases keyMatches_iff.mp hb with ⟨hb1, hb2⟩
    rcases hab.1 with hc | hyr
    · exact hc (ha1.trans hb1.symm)
    · exact hyr (ha2.trans hb2.symm)

theorem countKey_le_one {rows : List ResultRow} (h : RowsOk rows)
    (c y : String) : countKey rows c y ≤ 1 := by
  rcases hf : rows.filter (keyMatches c y) with _ | ⟨a, t⟩
  · simp [countKey, hf]
  · have ha : a ∈ rows.filter (keyMatches c y) := by rw [hf]; simp
    have := countKey_eq_one_of_mem h (List.mem_filter.mp ha).1
      (List.mem_filter.mp ha).2
    omega

/-- The ON DUPLICATE KEY UPDATE rewrite does not move the key, so
searching the key after the rewrite finds the rewritten row. -/
theorem findByKey_map_upsert (rows : List ResultRow) (c y : String)
    (d : List Nat) (fn mt ds : String) (now : Nat) :
    findByKey (rows.map (fun r =>
        if keyMatches c y r then applyDupUpdate d fn mt ds now r else r)) c y
      = (findByKey rows c y).map (fun r =>
        if keyMatches c y r then applyDupUpdate d fn mt ds now r else r) := by
  unfold findByKey
  rw [find?_map_comm]
  congr 1
  apply find?_congr_pred
  intro a
  by_cases hk : keyMatches c y a = true <;>
    simp [hk, keyMatches_applyDupUpdate]

theorem countKey_map_upsert (rows : List ResultRow) (c y : String)
    (d : List Nat) (fn mt ds : String) (now : Nat) :
    countKey (rows.map (fun r =>
        if keyMatches c y r then applyDupUpdate d fn mt ds now r else r)) c y
      = countKey rows c y := by
  unfold countKey
  rw [filter_map_comm, List.length_map]
  congr 1
  have : (fun a => keyMatches c y (if keyMatches c y a then
      applyDupUpdate d fn mt ds now a else a)) = keyMatches c y := by
    funext a
    by_cases hk : keyMatches c y a = true <;>
      simp [hk, keyMatches_applyDupUpdate]
  rw [this]

theorem storeInv_createResult {st : ResultsStore} (h : StoreInv st)
    (c y : String) (d : List Nat) (fn mt ds : String) (now : Nat) :
    StoreInv (createResult st c y d fn mt ds now) := by
  obtain ⟨hrows, hid⟩ := h
  unfold createResult
  by_cases hfk : (findByKey st.rows c y).isSome
  · simp only [hfk, if_true]
    refine ⟨?_, ?_⟩
    · show RowsOk (st.rows.map _)
      rw [RowsOk, List.pairwise_map]
      refine hrows.imp ?_
      intro a b hab
      refine ⟨?_, ?_⟩
      · by_cases ha : keyMatches c y a = true <;>
          by_cases hb : keyMatches c y b = true <;>
          simpa [ha, hb, applyDupUpdate] using hab.1
      · by_cases ha : keyMatches c y a = true <;>
          by_cases hb : keyMatches c y b = true <;>
          simpa [ha, hb, applyDupUpdate] using hab.2
    · intro r' hr'
      simp only [List.mem_map] at hr'
      obtain ⟨r, hm, rfl⟩ := hr'
      by_cases hk : keyMatches c y r = true <;>
        simpa [hk, applyDupUpdate] using hid r hm
  · have hnone : findByKey st.rows c y = none :=
      Option.not_isSome_iff_eq_none.mp hfk
    simp only [hnone, Option.isSome_none, Bool.false_eq_true, if_false]
    have hall : ∀ x ∈ st.rows, ¬ keyMatches c y x = true :=
      List.find?_eq_none.mp hnone
    refine ⟨?_, ?_⟩
    · show RowsOk (st.rows ++ _)
      rw [RowsOk, List.pairwise_append]
      refine ⟨hrows, List.pairwise_singleton _ _, ?_⟩
      intro a ha b hb
      simp only [List.mem_singleton] at hb
      subst hb
      refine ⟨?_, ?_⟩
      · have := hall a ha
        rw [keyMatches_iff] at this
        push_neg at this
        by_cases hc : a.category = c
        · exact Or.inr (this hc)
        · exact Or.inl hc
      · have := hid a ha
        show a.id ≠ st.nextId
        omega
    · intro r hr
      rcases List.mem_append.mp hr with hr | hr
      · have := hid r hr
        show r.id < st.nextId + 1
        omega
      · simp only [List.mem_singleton] at hr
        subst hr
        show st.nextId < st.nextId + 1
        omega

/-- What POST /api/results guarantees about the store: the key is
present exactly once afterwards, its row carries the uploaded payload,
and the row's identity survives an overwrite. -/
theorem createResult_spec {st : ResultsStore} (h : StoreInv st)
    (c y : String) (d : List Nat) (fn mt ds : String) (now : Nat) :
    ∃ r1, findByKey (createResult st c y d fn mt ds now).rows c y = some r1 ∧
      r1.category = c ∧ r1.year = y ∧
      r1.image_data = d ∧ r1.image_filename = fn ∧
      r1.image_mimetype = mt ∧ r1.description = ds ∧ r1.updated_at = now ∧
      countKey (createResult st c y d fn mt ds now).rows c y = 1 ∧
      (∀ r0, findByKey st.rows c y = some r0 →
        r1.id = r0.id ∧ r1.created_at = r0.created_at) ∧
      (findByKey st.rows c y = none →
        r1.id = st.nextId ∧ r1.created_at = now) := by
  unfold createResult
  rcases hfk : findByKey st.rows c y with _ | r0
  · simp only [hfk, Option.isSome_none, Bool.false_eq_true, if_false]
    have hall : ∀ x ∈ st.rows, ¬ keyMatches c y x = true :=
      List.find?_eq_none.mp hfk
    refine ⟨{ id := st.nextId, category := c, year := y, image_data := d,
              image_filename := fn, image_mimetype := mt,
              description := ds, created_at := now, updated_at := now },
      ?_, rfl, rfl, rfl, rfl, rfl, rfl, rfl, ?_, ?_, ?_⟩
    · show findByKey (st.rows ++ _) c y = _
      unfold findByKey at hfk ⊢
      rw [List.find?_append, hfk]
      simp [keyMatches]
    · show countKey (st.rows ++ _) c y = 1
      unfold countKey
      rw [List.filter_append]
      have h1 : st.rows.filter (keyMatches c y) = [] :=
        List.filter_eq_nil_iff.mpr hall
      rw [h1]
      simp [keyMatches]
    · intro r0 h0
      cases h0
    · intro _
      exact ⟨rfl, rfl⟩
  · have hsome : (findByKey st.rows c y).isSome := by rw [hfk]; rfl
    simp only [hfk, Option.isSome_some, if_true]
    have hk0 : keyMatches c y r0 = true := List.find?_some hfk
    have hfind := findByKey_map_upsert st.rows c y d fn mt ds now
    rw [hfk] at hfind
    rw [Option.map_some'] at hfind
    simp only [hk0, if_true] at hfind
    refine ⟨applyDupUpdate d fn mt ds now r0, hfind, ?_, ?_, rfl, rfl,
      rfl, rfl, rfl, ?_, ?_, ?_⟩
    · exact (keyMatches_iff.mp hk0).1
    · exact (keyMatches_iff.mp hk0).2
    · show countKey (st.rows.map _) c y = 1
      rw [countKey_map_upsert]
      exact countKey_eq_one_of_mem (h := h.1)
        (List.mem_of_find?_eq_some hfk) hk0
    · intro r0' h0'
      cases h0'
      exact ⟨rfl, rfl⟩
    · intro hno
      cases hno

theorem id_applyPut (c y ds : String)
    (file : Option (List Nat × String × String)) (now : Nat)
    (r : ResultRow) : (applyPut c y ds file now r).id = r.id := by
  rcases file with _ | ⟨d, fn, mt⟩ <;> rfl

theorem created_applyPut (c y ds : String)
    (file : Option (List Nat × String × String)) (now : Nat)
    (r : ResultRow) :
    (applyPut c y ds file now r).created_at = r.created_at := by
  rcases file with _ | ⟨d, fn, mt⟩ <;> rfl

theorem category_applyPut (c y ds : String)
    (file : Option (List Nat × String × String)) (now : Nat)
    (r : ResultRow) : (applyPut c y ds file now r).category = c := by
  rcases file with _ | ⟨d, fn, mt⟩ <;> rfl

theorem year_applyPut (c y ds : String)
    (file : Option (List Nat × String × String)) (now : Nat)
    (r : ResultRow) : (applyPut c y ds file now r).year = y := by
  rcases file with _ | ⟨d, fn, mt⟩ <;> rfl

theorem description_applyPut (c y ds : String)
    (file : Option (List Nat × String × String)) (now : Nat)
    (r : ResultRow) : (applyPut c y ds file now r).description = ds := by
  rcases file with _ | ⟨d, fn, mt⟩ <;> rfl

theorem updated_applyPut (c y ds : String)
    (file : Option (List Nat × String × String)) (now : Nat)
    (r : ResultRow) : (applyPut c y ds file now r).updated_at = now := by
  rcases file with _ | ⟨d, fn, mt⟩ <;> rfl

theorem storeInv_updateResult {st : ResultsStore} (h : StoreInv st)
    (i : Nat) (c y ds : String)
    (file : Option (List Nat × String × String)) (now : Nat) :
    StoreInv (updateResult st i c y ds file now).1 := by
  obtain ⟨hrows, hid⟩ := h
  unfold updateResult
  by_cases h1 : st.rows.any (fun r => r.id == i) = true
  · by_cases h2 : st.rows.any (fun r => r.id != i && keyMatches c y r) = true
    · simp only [h1, h2, if_true]
      exact ⟨hrows, hid⟩
    · rw [Bool.not_eq_true] at h2
      simp only [h1, h2, if_true, Bool.false_eq_true, if_false]
      have hno : ∀ r ∈ st.rows, r.id ≠ i → keyMatches c y r = false := by
        intro r hm hne
        by_contra hk
        rw [Bool.not_eq_false] at hk
        have hx : st.rows.any (fun r => r.id != i && keyMatches c y r)
            = true :=
          List.any_eq_true.mpr ⟨r, hm, by simp [bne_iff_ne, hne, hk]⟩
        rw [h2] at hx
        cases hx
      refine ⟨?_, ?_⟩
      · show RowsOk (st.rows.map _)
        rw [RowsOk, List.pairwise_map]
        refine hrows.imp_of_mem ?_
        intro a b ha hb hab
        refine ⟨?_, ?_⟩
        · by_cases hai : (a.id == i) = true <;>
            by_cases hbi : (b.id == i) = true
          · exfalso
            exact hab.2 ((beq_iff_eq.mp hai).trans (beq_iff_eq.mp hbi).symm)
          · have hbk : ¬ (b.category = c ∧ b.year = y) := by
              rw [← keyMatches_iff]
              simp [hno b hb (by simpa using hbi)]
            simp only [hai, hbi, Bool.false_eq_true, if_true, if_false]
            rw [category_applyPut, year_applyPut]
            by_cases hbc : b.category = c
            · exact Or.inr fun e => hbk ⟨hbc, e.symm⟩
            · exact Or.inl fun e => hbc e.symm
          · have hak : ¬ (a.category = c ∧ a.year = y) := by
              rw [← keyMatches_iff]
              simp [hno a ha (by simpa using hai)]
            simp only [hai, hbi, Bool.false_eq_true, if_true, if_false]
            rw [category_applyPut, year_applyPut]
            by_cases hac : a.category = c
            · exact Or.inr fun e => hak ⟨hac, e⟩
            · exact Or.inl hac
          · simp only [hai, hbi, Bool.false_eq_true, if_false]
            exact hab.1
        · by_cases hai : (a.id == i) = true <;>
            by_cases hbi : (b.id == i) = true <;>
            simp only [hai, hbi, Bool.false_eq_true, if_true, if_false,
              id_applyPut] <;>
            exact hab.2
      · intro r' hr'
        simp only [List.mem_map] at hr'
        obtain ⟨r, hm, rfl⟩ := hr'
        by_cases hk : (r.id == i) = true <;>
          simp only [hk, Bool.false_eq_true, if_true, if_false,
            id_applyPut] <;>
          exact hid r hm
  · rw [Bool.not_eq_true] at h1
    simp only [h1, Bool.false_eq_true, if_false]
    exact ⟨hrows, hid⟩

theorem storeInv_deleteResult {st : ResultsStore} (h : StoreInv st)
    (i : Nat) : StoreInv (deleteResult st i).1 := by
  obtain ⟨hrows, hid⟩ := h
  unfold deleteResult
  by_cases h1 : st.rows.any (fun r => r.id == i) = true
  · simp only [h1, if_true]
    refine ⟨hrows.sublist (List.filter_sublist _), ?_⟩
    intro r hr
    exact hid r (List.mem_of_mem_filter hr)
  · rw [Bool.not_eq_true] at h1
    simp only [h1, Bool.false_eq_true, if_false]
    exact ⟨hrows, hid⟩

/-- Every state the API handlers can reach satisfies the key
constraints. -/
theorem storeInv_reachable {st : ResultsStore} (h : Reachable st) :
    StoreInv st := by
  induction h with
  | init =>
    exact ⟨List.Pairwise.nil, fun r hr => absurd hr (List.not_mem_nil r)⟩
  | create c y d fn mt ds now _ ih =>
    exact storeInv_createResult ih c y d fn mt ds now
  | update i c y ds file now _ ih =>
    exact storeInv_updateResult ih i c y ds file now
  | delete i _ ih =>
    exact storeInv_deleteResult ih i

/-! ## Migration lemmas -/

theorem isLegacyResults_modern : isLegacyResults modernResultsCols = false := by
  decide

theorem isLegacyDocuments_modern :
    isLegacyDocuments modernDocumentsCols = false := by
  decide

theorem legacy_not_modern {cols : List String}
    (h : isLegacyResults cols = true) : isModernResults cols = false := by
  rw [isLegacyResults, Bool.and_eq_true] at h
  rw [isModernResults]
  simpa using h.2

theorem legacyDocs_not_modern {cols : List String}
    (h : isLegacyDocuments cols = true) : isModernDocuments cols = false := by
  rw [isLegacyDocuments, Bool.and_eq_true] at h
  rw [isModernDocuments]
  simpa using h.2

theorem migrateResultsStep_noDetect {s : Schema}
    (h : resultsDetect s = false) : migrateResultsStep s = (s, false) := by
  unfold migrateResultsStep
  simp [h]

theorem migrateResultsStep_stuck {s : Schema} (h : resultsDetect s = true)
    {cols : List String} (hn : s.results_new = some cols) :
    migrateResultsStep s = (s, true) := by
  unfold migrateResultsStep
  simp [h, hn]

theorem migrateResultsStep_go {s : Schema} (h : resultsDetect s = true)
    (hn : s.results_new = none) :
    migrateResultsStep s =
      ({ s with results := some modernResultsCols, results_new := none },
       false) := by
  unfold migrateResultsStep
  simp [h, hn]

theorem migrateDocumentsStep_noDetect {s : Schema}
    (h : documentsDetect s = false) : migrateDocumentsStep s = (s, false) := by
  unfold migrateDocumentsStep
  simp [h]

theorem migrateDocumentsStep_stuck {s : Schema}
    (h : documentsDetect s = true) {cols : List String}
    (hn : s.documents_new = some cols) :
    migrateDocumentsStep s = (s, true) := by
  unfold migrateDocumentsStep
  simp [h, hn]

theorem migrateDocumentsStep_go {s : Schema} (h : documentsDetect s = true)
    (hn : s.documents_new = none) :
    migrateDocumentsStep s =
      ({ s with documents := some modernDocumentsCols,
                documents_new := none }, false) := by
  unfold migrateDocumentsStep
  simp [h, hn]

/-- On an error the results step throws before mutating anything. -/
theorem migrateResultsStep_err_state {s : Schema}
    (h : (migrateResultsStep s).2 = true) : (migrateResultsStep s).1 = s := by
  by_cases hd : resultsDetect s = true
  · rcases hn : s.results_new with _ | cols
    · rw [migrateResultsStep_go hd hn] at h
      simp at h
    · rw [migrateResultsStep_stuck hd hn]
  · rw [Bool.not_eq_true] at hd
    rw [migrateResultsStep_noDetect hd]

theorem migrateDocumentsStep_err_state {s : Schema}
    (h : (migrateDocumentsStep s).2 = true) :
    (migrateDocumentsStep s).1 = s := by
  by_cases hd : documentsDetect s = true
  · rcases hn : s.documents_new with _ | cols
    · rw [migrateDocumentsStep_go hd hn] at h
      simp at h
    · rw [migrateDocumentsStep_stuck hd hn]
  · rw [Bool.not_eq_true] at hd
    rw [migrateDocumentsStep_noDetect hd]

/-- After an error-free results step the detection predicate is off. -/
theorem migrateResultsStep_ok_detect {s : Schema}
    (h : (migrateResultsStep s).2 = false) :
    resultsDetect (migrateResultsStep s).1 = false := by
  by_cases hd : resultsDetect s = true
  · rcases hn : s.results_new with _ | cols
    · rw [migrateResultsStep_go hd hn]
      show isLegacyResults modernResultsCols = false
      exact isLegacyResults_modern
    · rw [migrateResultsStep_stuck hd hn] at h
      simp at h
  · rw [Bool.not_eq_true] at hd
    rw [migrateResultsStep_noDetect hd]
    exact hd

theorem migrateDocumentsStep_ok_detect {s : Schema}
    (h : (migrateDocumentsStep s).2 = false) :
    documentsDetect (migrateDocumentsStep s).1 = false := by
  by_cases hd : documentsDetect s = true
  · rcases hn : s.documents_new with _ | cols
    · rw [migrateDocumentsStep_go hd hn]
      show isLegacyDocuments modernDocumentsCols = false
      exact isLegacyDocuments_modern
    · rw [migrateDocumentsStep_stuck hd hn] at h
      simp at h
  · rw [Bool.not_eq_true] at hd
    rw [migrateDocumentsStep_noDetect hd]
    exact hd

/-- The results step only touches the two results tables. -/
theorem migrateResultsStep_documents (s : Schema) :
    ((migrateResultsStep s).1).documents = s.documents ∧
    ((migrateResultsStep s).1).documents_new = s.documents_new := by
  by_cases hd : resultsDetect s = true
  · rcases hn : s.results_new with _ | cols
    · rw [migrateResultsStep_go hd hn]
      exact ⟨rfl, rfl⟩
    · rw [migrateResultsStep_stuck hd hn]
      exact ⟨rfl, rfl⟩
  · rw [Bool.not_eq_true] at hd
    rw [migrateResultsStep_noDetect hd]
    exact ⟨rfl, rfl⟩

/-- The documents step only touches the two documents tables. -/
theorem migrateDocumentsStep_results (s : Schema) :
    ((migrateDocumentsStep s).1).results = s.results ∧
    ((migrateDocumentsStep s).1).results_new = s.results_new := by
  by_cases hd : documentsDetect s = true
  · rcases hn : s.documents_new with _ | cols
    · rw [migrateDocumentsStep_go hd hn]
      exact ⟨rfl, rfl⟩
    · rw [migrateDocumentsStep_stuck hd hn]
      exact ⟨rfl, rfl⟩
  · rw [Bool.not_eq_true] at hd
    rw [migrateDocumentsStep_noDetect hd]
    exact ⟨rfl, rfl⟩

/-- Detection only reads the results column list. -/
theorem resultsDetect_congr {s t : Schema} (h : s.results = t.results) :
    resultsDetect s = resultsDetect t := by
  unfold resultsDetect
  rw [h]

theorem documentsDetect_congr {s t : Schema} (h : s.documents = t.documents) :
    documentsDetect s = documentsDetect t := by
  unfold documentsDetect
  rw [h]

theorem migrateTables_eq_err {s s1 : Schema}
    (h : migrateResultsStep s = (s1, true)) : migrateTables s = (s1, true) := by
  unfold migrateTables
  rw [h]

theorem migrateTables_eq_ok {s s1 : Schema}
    (h : migrateResultsStep s = (s1, false)) :
    migrateTables s = migrateDocumentsStep s1 := by
  unfold migrateTables
  rw [h]

theorem isModernResults_modern : isModernResults modernResultsCols = true := by
  decide

theorem isModernDocuments_modern :
    isModernDocuments modernDocumentsCols = true := by
  decide

theorem migrateResultsStep_results_shape (s : Schema) :
    ((migrateResultsStep s).1).results = s.results ∨
    ((migrateResultsStep s).1).results = some modernResultsCols := by
  by_cases hd : resultsDetect s = true
  · rcases hn : s.results_new with _ | cols
    · rw [migrateResultsStep_go hd hn]
      exact Or.inr rfl
    · rw [migrateResultsStep_stuck hd hn]
      exact Or.inl rfl
  · rw [Bool.not_eq_true] at hd
    rw [migrateResultsStep_noDetect hd]
    exact Or.inl rfl

theorem migrateDocumentsStep_documents_shape (s : Schema) :
    ((migrateDocumentsStep s).1).documents = s.documents ∨
    ((migrateDocumentsStep s).1).documents = some modernDocumentsCols := by
  by_cases hd : documentsDetect s = true
  · rcases hn : s.documents_new with _ | cols
    · rw [migrateDocumentsStep_go hd hn]
      exact Or.inr rfl
    · rw [migrateDocumentsStep_stuck hd hn]
      exact Or.inl rfl
  · rw [Bool.not_eq_true] at hd
    rw [migrateDocumentsStep_noDetect hd]
    exact Or.inl rfl

theorem migrateTables_results_shape (s : Schema) :
    ((migrateTables s).1).results = s.results ∨
    ((migrateTables s).1).results = some modernResultsCols := by
  rcases hr : migrateResultsStep s with ⟨s1, e1⟩
  cases e1
  · rw [migrateTables_eq_ok hr]
    have hstep := migrateResultsStep_results_shape s
    rw [hr] at hstep
    have hdoc := (migrateDocumentsStep_results s1).1
    rcases hstep with hs | hs
    · exact Or.inl (hdoc.trans hs)
    · exact Or.inr (hdoc.trans hs)
  · rw [migrateTables_eq_err hr]
    have hstep := migrateResultsStep_results_shape s
    rw [hr] at hstep
    exact hstep

theorem migrateTables_documents_shape (s : Schema) :
    ((migrateTables s).1).documents = s.documents ∨
    ((migrateTables s).1).documents = some modernDocumentsCols := by
  rcases hr : migrateResultsStep s with ⟨s1, e1⟩
  have hres := migrateResultsStep_documents s
  rw [hr] at hres
  cases e1
  · rw [migrateTables_eq_ok hr]
    have hdoc := migrateDocumentsStep_documents_shape s1
    rcases hdoc with hs | hs
    · exact Or.inl (hs.trans hres.1)
    · exact Or.inr hs
  · rw [migrateTables_eq_err hr]
    exact Or.inl hres.1

/-- Running the whole migration routine a second time does not change
the schema. -/
theorem migrateTables_state_idem (s : Schema) :
    (migrateTables (migrateTables s).1).1 = (migrateTables s).1 := by
  rcases hr : migrateResultsStep s with ⟨s1, e1⟩
  cases e1
  · have hms := migrateTables_eq_ok hr
    have h1 : resultsDetect s1 = false := by
      have := migrateResultsStep_ok_detect (s := s) (by rw [hr])
      rwa [hr] at this
    rcases hd : migrateDocumentsStep s1 with ⟨s2, e2⟩
    cases e2
    · have h2 : documentsDetect s2 = false := by
        have := migrateDocumentsStep_ok_detect (s := s1) (by rw [hd])
        rwa [hd] at this
      have h3 : resultsDetect s2 = false := by
        have hres := (migrateDocumentsStep_results s1).1
        rw [hd] at hres
        rw [resultsDetect_congr (t := s1) hres]
        exact h1
      rw [hms, hd]
      show (migrateTables s2).1 = s2
      rw [migrateTables_eq_ok (migrateResultsStep_noDetect h3),
        migrateDocumentsStep_noDetect h2]
    · have hs2 : s2 = s1 := by
        have := migrateDocumentsStep_err_state (s := s1) (by rw [hd])
        rwa [hd] at this
      subst hs2
      rw [hms, hd]
      show (migrateTables s2).1 = s2
      rw [migrateTables_eq_ok (migrateResultsStep_noDetect h1), hd]
  · have hs1 : s1 = s := by
      have := migrateResultsStep_err_state (s := s) (by rw [hr])
      rwa [hr] at this
    subst hs1
    rw [migrateTables_eq_err hr]
    show (migrateTables s1).1 = s1
    rw [migrateTables_eq_err hr]

/-- When the routine finishes without entering its catch block, both
detection predicates are off afterwards. -/
theorem migrateTables_ok_detect {s : Schema}
    (h : (migrateTables s).2 = false) :
    resultsDetect (migrateTables s).1 = false ∧
    documentsDetect (migrateTables s).1 = false := by
  rcases hr : migrateResultsStep s with ⟨s1, e1⟩
  cases e1
  · have hms := migrateTables_eq_ok hr
    have h1 : resultsDetect s1 = false := by
      have := migrateResultsStep_ok_detect (s := s) (by rw [hr])
      rwa [hr] at this
    rcases hd : migrateDocumentsStep s1 with ⟨s2, e2⟩
    cases e2
    · have h2 : documentsDetect s2 = false := by
        have := migrateDocumentsStep_ok_detect (s := s1) (by rw [hd])
        rwa [hd] at this
      have h3 : resultsDetect s2 = false := by
        have hres := (migrateDocumentsStep_results s1).1
        rw [hd] at hres
        rw [resultsDetect_congr (t := s1) hres]
        exact h1
      rw [hms, hd]
      exact ⟨h3, h2⟩
    · rw [hms, hd] at h
      simp at h
  · rw [migrateTables_eq_err hr] at h
    simp at h

/-- C3: the schema migration is idempotent: for every starting schema
state, running migrateTables twice yields the same state as running it
once, the second run being a no-op; after an error-free run the
detection predicates (legacy path column present, new BLOB column
absent) are false; and for a table that starts in the legacy or the new
layout, after migration exactly one of the two layouts holds of it. -/
theorem migration_idempotent (s : Schema) :
    (migrateTables (migrateTables s).1).1 = (migrateTables s).1 ∧
    ((migrateTables s).2 = false →
      resultsDetect (migrateTables s).1 = false ∧
      documentsDetect (migrateTables s).1 = false) ∧
    (∀ cols, s.results = some cols →
      (isLegacyResults cols || isModernResults cols) = true →
      ∃ cols2, ((migrateTables s).1).results = some cols2 ∧
        (isLegacyResults cols2 = true ↔ ¬ isModernResults cols2 = true)) ∧
    (∀ cols, s.documents = some cols →
      (isLegacyDocuments cols || isModernDocuments cols) = true →
      ∃ cols2, ((migrateTables s).1).documents = some cols2 ∧
        (isLegacyDocuments cols2 = true ↔ ¬ isModernDocuments cols2 = true)) := by
  refine ⟨migrateTables_state_idem s, fun h => migrateTables_ok_detect h,
    ?_, ?_⟩
  · intro cols hcols hl
    rcases migrateTables_results_shape s with hs | hs
    · refine ⟨cols, by rw [hs, hcols], ?_⟩
      rcases Bool.or_eq_true_iff.mp hl with h1 | h1
      · rw [h1, legacy_not_modern h1]
        simp
      · constructor
        · intro h2
          rw [legacy_not_modern h2] at h1
          cases h1
        · intro h2
          exact absurd h1 h2
    · refine ⟨modernResultsCols, hs, ?_⟩
      rw [isLegacyResults_modern, isModernResults_modern]
      simp
  · intro cols hcols hl
    rcases migrateTables_documents_shape s with hs | hs
    · refine ⟨cols, by rw [hs, hcols], ?_⟩
      rcases Bool.or_eq_true_iff.mp hl with h1 | h1
      · rw [h1, legacyDocs_not_modern h1]
        simp
      · constructor
        · intro h2
          rw [legacyDocs_not_modern h2] at h1
          cases h1
        · intro h2
          exact absurd h1 h2
    · refine ⟨modernDocumentsCols, hs, ?_⟩
      rw [isLegacyDocuments_modern, isModernDocuments_modern]
      simp

/-- Witness for C3 at the real legacy schema. -/
theorem migration_idempotent_witness :
    (migrateTables (migrateTables legacySchema).1).1 =
      (migrateTables legacySchema).1 ∧
    (∃ cols2, ((migrateTables legacySchema).1).results = some cols2 ∧
      (isLegacyResults cols2 = true ↔ ¬ isModernResults cols2 = true)) :=
  ⟨(migration_idempotent legacySchema).1,
   (migration_idempotent legacySchema).2.2.1 legacyResultsCols rfl
     (by decide)⟩

/-- C4 counterexample: on the schema left behind by a crash between
CREATE TABLE results_new and DROP TABLE results, the migration fails
(its catch block is entered), yet the process still starts serving
traffic; moreover both the legacy results table and results_new remain
constructed and the detection predicate still fires, so the failure
state defeats every later migration run. -/
theorem migration_failure_serves_anyway :
    (migrateTables stuckSchema).2 = true ∧
    startServer stuckSchema ≠ none ∧
    ((migrateTables stuckSchema).1).results = some legacyResultsCols ∧
    ((migrateTables stuckSchema).1).results_new = some modernResultsCols ∧
    resultsDetect (migrateTables stuckSchema).1 = true := by
  refine ⟨?_, ?_, ?_, ?_, ?_⟩ <;> decide

/-- C4 amended: a migration failure is caught inside migrateTables and
is not fatal: table initialization proceeds and the process begins
serving traffic regardless. -/
theorem migration_failure_nonfatal (s : Schema)
    (herr : (migrateTables s).2 = true) :
    ∃ s1, startServer s = some s1 := by
  rcases hm : migrateTables s with ⟨s1, e⟩
  refine ⟨createTablesStep s1, ?_⟩
  unfold startServer initializeTables
  rw [hm]

/-- Witness for the amended C4 at the stuck schema. -/
theorem migration_failure_nonfatal_witness :
    (migrateTables stuckSchema).2 = true ∧
    ∃ s1, startServer stuckSchema = some s1 :=
  ⟨by decide, migration_failure_nonfatal stuckSchema (by decide)⟩

/-- The empty table satisfies the key constraints. -/
theorem storeInv_empty : StoreInv emptyResults :=
  ⟨List.Pairwise.nil, fun r hr => absurd hr (List.not_mem_nil r)⟩

/-- C1: creating a Result for an existing (category, year) pair
replaces that row's payload, filename, MIME type, description and
updated-timestamp in place, preserving its id and created-timestamp:
after two creates with different payloads exactly one row exists for
the pair and it carries the second payload. -/
theorem upsert_replaces_in_place {st : ResultsStore} (hinv : StoreInv st)
    (c y : String) (d1 : List Nat) (f1 m1 ds1 : String) (t1 : Nat)
    (d2 : List Nat) (f2 m2 ds2 : String) (t2 : Nat) :
    ∃ r1 r2,
      findByKey (createResult st c y d1 f1 m1 ds1 t1).rows c y = some r1 ∧
      findByKey (createResult (createResult st c y d1 f1 m1 ds1 t1)
        c y d2 f2 m2 ds2 t2).rows c y = some r2 ∧
      countKey (createResult (createResult st c y d1 f1 m1 ds1 t1)
        c y d2 f2 m2 ds2 t2).rows c y = 1 ∧
      r2.image_data = d2 ∧ r2.image_filename = f2 ∧
      r2.image_mimetype = m2 ∧ r2.description = ds2 ∧
      r2.updated_at = t2 ∧ r2.id = r1.id ∧
      r2.created_at = r1.created_at := by
  obtain ⟨r1, h1find, -, -, -, -, -, -, -, -, -⟩ :=
    createResult_spec hinv c y d1 f1 m1 ds1 t1
  have hinv1 := storeInv_createResult hinv c y d1 f1 m1 ds1 t1
  obtain ⟨r2, h2find, -, -, hd2, hf2, hm2, hds2, hu2, hcount, hpres, -⟩ :=
    createResult_spec hinv1 c y d2 f2 m2 ds2 t2
  exact ⟨r1, r2, h1find, h2find, hcount, hd2, hf2, hm2, hds2, hu2,
    (hpres r1 h1find).1, (hpres r1 h1find).2⟩

/-- Witness for C1: two uploads for (mini-odbojka, 2024) starting from
an empty table. -/
theorem upsert_replaces_in_place_witness :
    ∃ r1 r2,
      findByKey (createResult emptyResults sMini s2024 [1] sFnA sPng
        sDescA 1).rows sMini s2024 = some r1 ∧
      findByKey (createResult (createResult emptyResults sMini s2024 [1]
        sFnA sPng sDescA 1) sMini s2024 [2] sFnB sPng sDescB 2).rows
        sMini s2024 = some r2 ∧
      countKey (createResult (createResult emptyResults sMini s2024 [1]
        sFnA sPng sDescA 1) sMini s2024 [2] sFnB sPng sDescB 2).rows
        sMini s2024 = 1 ∧
      r2.image_data = [2] ∧ r2.image_filename = sFnB ∧
      r2.image_mimetype = sPng ∧ r2.description = sDescB ∧
      r2.updated_at = 2 ∧ r2.id = r1.id ∧
      r2.created_at = r1.created_at :=
  upsert_replaces_in_place storeInv_empty sMini s2024 [1] sFnA sPng
    sDescA 1 [2] sFnB sPng sDescB 2

/-- C2: in every reachable store state the results table holds at most
one row per (category, year) pair, and each of the three mutating
operations preserves the key constraints. -/
theorem results_at_most_one_per_key :
    (∀ st, Reachable st → ∀ c y, countKey st.rows c y ≤ 1) ∧
    (∀ st c y d fn mt ds now, StoreInv st →
      StoreInv (createResult st c y d fn mt ds now)) ∧
    (∀ st i c y ds file now, StoreInv st →
      StoreInv (updateResult st i c y ds file now).1) ∧
    (∀ st i, StoreInv st → StoreInv (deleteResult st i).1) := by
  refine ⟨?_, ?_, ?_, ?_⟩
  · intro st h c y
    exact countKey_le_one (storeInv_reachable h).1 c y
  · intro st c y d fn mt ds now h
    exact storeInv_createResult h c y d fn mt ds now
  · intro st i c y ds file now h
    exact storeInv_updateResult h i c y ds file now
  · intro st i h
    exact storeInv_deleteResult h i

/-- Witness for C2 at a store reached by two creates. -/
theorem results_at_most_one_per_key_witness :
    countKey (createResult (createResult emptyResults sMini s2024 [1]
      sFnA sPng sDescA 1) sMini s2023 [2] sFnB sPng sDescB 2).rows
      sMini s2024 ≤ 1 :=
  results_at_most_one_per_key.1 _
    (Reachable.create sMini s2023 [2] sFnB sPng sDescB 2
      (Reachable.create sMini s2024 [1] sFnA sPng sDescA 1 Reachable.init))
    sMini s2024

/-- C5 counterexample: a text file posted in the image field of
POST /api/results (and a PNG posted in the file field of
POST /api/documents) is rejected with HTTP 500, not a 4xx status: the
fileFilter passes a plain Error, which the error middleware does not
recognise as a size-limit MulterError and maps to 500.  No row is
written, so only the status part of the claim fails. -/
theorem mime_reject_not_4xx :
    (postResults wStore badImageUpload sMini s2024 sDescA 7).1 = 500 ∧
    ¬(400 ≤ (postResults wStore badImageUpload sMini s2024 sDescA 7).1 ∧
      (postResults wStore badImageUpload sMini s2024 sDescA 7).1 ≤ 499) ∧
    (postResults wStore badImageUpload sMini s2024 sDescA 7).2 = wStore ∧
    (postDocuments emptyDocs badPdfUpload sDescA sMini sDescB 7).1 = 500 ∧
    (postDocuments emptyDocs badPdfUpload sDescA sMini sDescB 7).2 =
      emptyDocs := by
  refine ⟨?_, ?_, ?_, ?_, ?_⟩ <;> decide

/-- C5 amended: an upload whose file field carries a non-matching MIME
type is rejected before any persistence is attempted — the store is
returned unchanged — but with status 500 rather than a 4xx, because
only the size-limit MulterError is mapped to 400 by the error
middleware. -/
theorem mime_reject_before_persistence (st : ResultsStore) (dst : DocStore)
    (u v : Upload) (c y ds title ds2 : String) (now : Nat)
    (hu : fileFilter u.fieldname u.mimetype = false)
    (hv : fileFilter v.fieldname v.mimetype = false) :
    postResults st u c y ds now = (500, st) ∧
    postDocuments dst v title c ds2 now = (500, dst) := by
  constructor
  · unfold postResults multerAccept
    simp [hu, errorMiddlewareStatus]
  · unfold postDocuments multerAccept
    simp [hv, errorMiddlewareStatus]

/-- Witness for the amended C5. -/
theorem mime_reject_before_persistence_witness :
    postResults wStore badImageUpload sMini s2024 sDescA 7 = (500, wStore) ∧
    postDocuments emptyDocs badPdfUpload sDescA sMini sDescB 7 =
      (500, emptyDocs) :=
  mime_reject_before_persistence wStore emptyDocs badImageUpload
    badPdfUpload sMini s2024 sDescA sDescA sDescB 7 (by decide) (by decide)

/-- C8: GET /api/results lists every Result row, ordered by season-year
descending and, within equal years, by category ascending. -/
theorem getResults_ordered (st : ResultsStore) :
    List.Sorted resultsOrder (getResults st) ∧
    (getResults st).Perm st.rows := by
  constructor
  · exact List.sorted_insertionSort resultsOrder st.rows
  · exact List.perm_insertionSort resultsOrder st.rows

/-- C10: the POST /api/documents response body carries the generated id
of the inserted row, while the POST /api/results response body has no
id key at all. -/
theorem documents_return_id_results_do_not (dst : DocStore)
    (title c : String) (d : List Nat) (fn mt ds : String) (now : Nat)
    (c2 y2 fn2 mt2 ds2 : String) :
    ((documentsCreateBody (createDocument dst title c d fn mt ds now).2
        title c fn mt ds).lookup sId =
      some (JsonVal.num (createDocument dst title c d fn mt ds now).2)) ∧
    (∃ r, r ∈ ((createDocument dst title c d fn mt ds now).1).rows ∧
      r.id = (createDocument dst title c d fn mt ds now).2) ∧
    ((resultsCreateBody c2 y2 fn2 mt2 ds2).lookup sId = none) := by
  refine ⟨rfl, ?_, ?_⟩
  · refine ⟨_, List.mem_append_right _ (List.mem_singleton_self _), rfl⟩
  · rfl

/-- C6: round-trip fidelity of the binary payload.  After an upload for
a (category, year) pair, GET /api/results/:id/image on the stored row's
id returns exactly the uploaded bytes with the stored MIME type and
filename; likewise, after a PUT that replaces the payload of row i,
fetching the image of i returns the new payload. -/
theorem image_roundtrip {st : ResultsStore} (hinv : StoreInv st)
    (c y : String) (d : List Nat) (fn mt ds : String) (now : Nat) :
    (∃ r, findByKey (createResult st c y d fn mt ds now).rows c y =
        some r ∧
      getResultImage (createResult st c y d fn mt ds now) r.id =
        some (d, mt, fn)) ∧
    (∀ i c2 y2 ds2 d2 fn2 mt2 t2 st2,
      updateResult st i c2 y2 ds2 (some (d2, fn2, mt2)) t2 =
        (st2, DbOutcome.ok) →
      getResultImage st2 i = some (d2, mt2, fn2)) := by
  constructor
  · obtain ⟨r, hfind, -, -, hd, hfn, hmt, -, -, -, -⟩ :=
      createResult_spec hinv c y d fn mt ds now
    have hinv2 := storeInv_createResult hinv c y d fn mt ds now
    have hmem : r ∈ (createResult st c y d fn mt ds now).rows :=
      List.mem_of_find?_eq_some hfind
    refine ⟨r, hfind, ?_⟩
    unfold getResultImage
    rw [findById_of_mem hinv2.1 hmem, Option.map_some', hd, hmt, hfn]
  · intro i c2 y2 ds2 d2 fn2 mt2 t2 st2 hok
    unfold updateResult at hok
    by_cases h1 : st.rows.any (fun r => r.id == i) = true
    · by_cases h2 :
          st.rows.any (fun r => r.id != i && keyMatches c2 y2 r) = true
      · rw [if_pos h1, if_pos h2] at hok
        injection hok with hA hB
        cases hB
      · rw [if_pos h1, if_neg h2] at hok
        injection hok with hA hB
        subst hA
        rcases hf : findById st.rows i with _ | r0
        · exfalso
          obtain ⟨r0, hr0mem, hr0id⟩ := List.any_eq_true.mp h1
          have := List.find?_eq_none.mp
            (show st.rows.find? (fun r => r.id == i) = none from hf) r0 hr0mem
          exact this hr0id
        · have hkr0 := List.find?_some
            (show st.rows.find? (fun r => r.id == i) = some r0 from hf)
          have hkr : (r0.id == i) = true := hkr0
          have hmapfind : findById (st.rows.map (fun r =>
              if r.id == i then
                applyPut c2 y2 ds2 (some (d2, fn2, mt2)) t2 r
              else r)) i =
              Option.map (fun r =>
                if r.id == i then
                  applyPut c2 y2 ds2 (some (d2, fn2, mt2)) t2 r
                else r) (findById st.rows i) := by
            unfold findById
            rw [find?_map_comm]
            congr 1
            apply find?_congr_pred
            intro a
            by_cases hk : (a.id == i) = true <;> simp [hk, id_applyPut]
          unfold getResultImage
          show (findById (st.rows.map _) i).map _ = _
          rw [hmapfind, hf, Option.map_some']
          simp only [hkr, if_true, Option.map_some']
          rfl
    · rw [if_neg h1] at hok
      injection hok with hA hB
      cases hB

/-- Witness for C6 at an upload into the empty table. -/
theorem image_roundtrip_witness :
    ∃ r, findByKey (createResult emptyResults sMini s2024 [9] sFnA sPng
      sDescA 4).rows sMini s2024 = some r ∧
    getResultImage (createResult emptyResults sMini s2024 [9] sFnA sPng
      sDescA 4) r.id = some ([9], sPng, sFnA) :=
  (image_roundtrip storeInv_empty sMini s2024 [9] sFnA sPng sDescA 4).1

/-- C7: login with an unknown username or a password that does not
match the stored hash answers 401 (invalidCredentials) and carries no
token; login with matching credentials returns a bearer token that
expires 24 hours (86400 seconds) after issue, is accepted by the
authentication middleware strictly before that instant, and is rejected
as invalid/expired from that instant on. -/
theorem login_auth_spec (users : List AdminUser) (uname pw secret : String)
    (now : Nat) (hu : uname ≠ emptyString) (hp : pw ≠ emptyString) :
    (users.find? (fun u => u.username == uname) = none →
      login users uname pw secret now = LoginResult.invalidCredentials) ∧
    (∀ u, users.find? (fun u => u.username == uname) = some u →
      bcryptCompareSync pw u.password_hash = false →
      login users uname pw secret now = LoginResult.invalidCredentials) ∧
    (∀ u, users.find? (fun u => u.username == uname) = some u →
      bcryptCompareSync pw u.password_hash = true →
      login users uname pw secret now =
        LoginResult.success (jwtSign u.id u.username secret now) u.id
          u.username ∧
      (jwtSign u.id u.username secret now).exp = now + 86400 ∧
      (∀ t, t < now + 86400 →
        authenticateToken (some (jwtSign u.id u.username secret now))
          secret t = AuthResult.authorized u.id u.username) ∧
      (∀ t, now + 86400 ≤ t →
        authenticateToken (some (jwtSign u.id u.username secret now))
          secret t = AuthResult.invalidOrExpired)) := by
  have hcu : (uname == emptyString) = false := by simpa using hu
  have hcp : (pw == emptyString) = false := by simpa using hp
  refine ⟨?_, ?_, ?_⟩
  · intro hnone
    unfold login
    rw [hcu, hcp]
    simp [hnone]
  · intro u hfind hcmp
    unfold login
    rw [hcu, hcp]
    simp [hfind, hcmp]
  · intro u hfind hcmp
    refine ⟨?_, ?_, ?_, ?_⟩
    · unfold login
      rw [hcu, hcp]
      simp [hfind, hcmp]
    · show now + 24 * 60 * 60 = now + 86400
      omega
    · intro t ht
      have hl : t < now + 24 * 60 * 60 := by omega
      unfold authenticateToken jwtVerify
      simp [jwtSign, hl]
    · intro t ht
      have hnl : ¬ t < now + 24 * 60 * 60 := by omega
      unfold authenticateToken jwtVerify
      simp [jwtSign, hnl]

/-- Witness for C7 against the seeded admin table: the wrong password
is refused, the right one yields a token honoured before 86400 and
refused at 86400. -/
theorem login_auth_spec_witness :
    login wUsers sAdmin sWrongPw sSecret 0 =
      LoginResult.invalidCredentials ∧
    (login wUsers sAdmin sDefaultPw sSecret 0 =
        LoginResult.success (jwtSign wUser.id wUser.username sSecret 0)
          wUser.id wUser.username ∧
      (jwtSign wUser.id wUser.username sSecret 0).exp = 0 + 86400 ∧
      (∀ t, t < 0 + 86400 →
        authenticateToken (some (jwtSign wUser.id wUser.username sSecret 0))
          sSecret t = AuthResult.authorized wUser.id wUser.username) ∧
      (∀ t, 0 + 86400 ≤ t →
        authenticateToken (some (jwtSign wUser.id wUser.username sSecret 0))
          sSecret t = AuthResult.invalidOrExpired)) :=
  ⟨(login_auth_spec wUsers sAdmin sWrongPw sSecret 0 (by decide)
      (by decide)).2.1 wUser (by decide) (by decide),
   (login_auth_spec wUsers sAdmin sDefaultPw sSecret 0 (by decide)
      (by decide)).2.2 wUser (by decide) (by decide)⟩

/-- C9: a successful PUT /api/results/:id rewrites exactly the
addressed row — setting category, year, description and updated_at,
preserving id and created_at, keeping the three image columns when no
file was uploaded and replacing them when one was — and leaves every
other row (position by position) unchanged. -/
theorem put_frame (st : ResultsStore) (i : Nat) (c y ds : String)
    (file : Option (List Nat × String × String)) (now : Nat)
    (st2 : ResultsStore)
    (hok : updateResult st i c y ds file now = (st2, DbOutcome.ok)) :
    st2.rows.length = st.rows.length ∧ st2.nextId = st.nextId ∧
    ∀ j r r2, st.rows.get? j = some r → st2.rows.get? j = some r2 →
      (r.id ≠ i → r2 = r) ∧
      (r.id = i → r2.id = r.id ∧ r2.created_at = r.created_at ∧
        r2.category = c ∧ r2.year = y ∧ r2.description = ds ∧
        r2.updated_at = now ∧
        (file = none → r2.image_data = r.image_data ∧
          r2.image_filename = r.image_filename ∧
          r2.image_mimetype = r.image_mimetype) ∧
        (∀ d fn mt, file = some (d, fn, mt) → r2.image_data = d ∧
          r2.image_filename = fn ∧ r2.image_mimetype = mt)) := by
  unfold updateResult at hok
  by_cases h1 : st.rows.any (fun r => r.id == i) = true
  · by_cases h2 : st.rows.any (fun r => r.id != i && keyMatches c y r) = true
    · rw [if_pos h1, if_pos h2] at hok
      injection hok with hA hB
      cases hB
    · rw [if_pos h1, if_neg h2] at hok
      injection hok with hA hB
      subst hA
      refine ⟨?_, rfl, ?_⟩
      · show (st.rows.map _).length = st.rows.length
        exact List.length_map _ _
      · intro j r r2 hr hr2
        have hg : (st.rows.map (fun r =>
            if r.id == i then applyPut c y ds file now r else r)).get? j =
            Option.map (fun r =>
              if r.id == i then applyPut c y ds file now r else r)
              (st.rows.get? j) :=
          List.get?_map _ _ _
        have hr2a : (st.rows.map (fun r =>
            if r.id == i then applyPut c y ds file now r else r)).get? j =
            some r2 := hr2
        rw [hg, hr, Option.map_some'] at hr2a
        injection hr2a with hr2a
        subst hr2a
        constructor
        · intro hne
          have hne2 : (r.id == i) = false := by simpa using hne
          simp [hne2]
        · intro heq
          have hid2 : (r.id == i) = true := by simpa using heq
          simp only [hid2, if_true]
          refine ⟨id_applyPut c y ds file now r,
            created_applyPut c y ds file now r,
            category_applyPut c y ds file now r,
            year_applyPut c y ds file now r,
            description_applyPut c y ds file now r,
            updated_applyPut c y ds file now r, ?_, ?_⟩
          · intro hf
            subst hf
            exact ⟨rfl, rfl, rfl⟩
          · intro d fn mt hf
            subst hf
            exact ⟨rfl, rfl, rfl⟩
  · rw [if_neg h1] at hok
    injection hok with hA hB
    cases hB

/-- Witness for C9: PUT without a file on row 1 of the two-row store. -/
theorem put_frame_witness :
    wStoreAfterPut.rows.length = wStore.rows.length ∧
    wStoreAfterPut.nextId = wStore.nextId ∧
    ∀ j r r2, wStore.rows.get? j = some r →
      wStoreAfterPut.rows.get? j = some r2 →
      (r.id ≠ 1 → r2 = r) ∧
      (r.id = 1 → r2.id = r.id ∧ r2.created_at = r.created_at ∧
        r2.category = sMini ∧ r2.year = s2023 ∧ r2.description = sDescB ∧
        r2.updated_at = 42 ∧
        ((none : Option (List Nat × String × String)) = none →
          r2.image_data = r.image_data ∧
          r2.image_filename = r.image_filename ∧
          r2.image_mimetype = r.image_mimetype) ∧
        (∀ d fn mt,
          (none : Option (List Nat × String × String)) = some (d, fn, mt) →
          r2.image_data = d ∧ r2.image_filename = fn ∧
          r2.image_mimetype = mt)) :=
  put_frame wStore 1 sMini s2023 sDescB none 42 wStoreAfterPut rfl

end Ook
